import Mathlib

/-!
Shallow embedding of the OAuth2 session lifecycle manager of the stratis
repository (`StratisOAuth2ProviderSession`, file `src/unnamed/part_004`).

Modelling conventions:
* Timestamps and intervals are `Int` (JS numbers under ordinary integer
  arithmetic); the current clock `milliseconds_utc_since_epoc()` is passed
  explicitly as a `now : Int` parameter.
* Nullable JS fields are `Option`; a JS object field that is absent and one
  that is `null` behave identically in the code modelled here (both are
  `== null` and both are skipped by the non-null merge filter), so both are
  `none`.
* The identity-provider network is an explicit oracle (`Net`): each call
  site of `introspect` / `get_token_from_refresh_token` reads its own oracle
  slot; `none` models a thrown transport / non-2xx error (the code under
  `update()` always calls with `throw_errors = false`, so a thrown error
  becomes a `false` return).
* The backing stores are modelled in `Stores`: `req_session` is
  `req.session` (`none` = the request has no session object; `some v` = a
  session object whose entry under the provider's session key is `v`), and
  `cache` is the provider's `bearer_token_session_cache_bank` as a map from
  bearer-token string to stored data.
* `update()`'s `switch (this.session_type)` has no `break` at the end of the
  `bearer` case, so a bearer session falls through into the `session_state`
  block; the model reproduces this fall-through.
* `save()` throws on an unknown (null) `session_type`; fallible operations
  therefore return `Except String _`.
-/

namespace Stratis

/-- The introspection result object; the session code only reads its
`active` field (`token_info.active == true`). -/
structure TokenInfo where
  active : Option Bool
  deriving Repr, DecidableEq

/-- `StratisOAuth2ProviderSessionData`: the session-storable value object
(typedef at the top of the source file). -/
structure SessionData where
  access_token : Option String
  id_token : Option String
  scope : Option String
  refresh_token : Option String
  token_info : Option TokenInfo
  invalidated : Option Int
  updated : Option Int
  refreshed : Option Int
  introspected : Option Int
  deriving Repr, DecidableEq

/-- The empty session data object `{}`. -/
def emptyData : SessionData :=
  ⟨none, none, none, none, none, none, none, none, none⟩

/-- `'session_state' | 'bearer'`: where the token was loaded from. -/
inductive SessionType
  | session_state
  | bearer
  deriving Repr, DecidableEq

/-- The provider configuration consumed by the session code
(`this.provider.*`): the introspection endpoint (if any) and the two
intervals. -/
structure Provider where
  introspect_url : Option String
  refresh_interval : Int
  recheck_interval : Int
  deriving Repr, DecidableEq

/-- `StratisOAuth2ProviderSession`: the per-request state. `session_type`
is `null` until one of the load functions runs. -/
structure SessionState where
  session_type : Option SessionType
  data : SessionData
  deriving Repr, DecidableEq

/-- Getter `updated` (`this.data.updated || 0`). -/
def SessionState.updated_ts (s : SessionState) : Int :=
  (s.data.updated).getD 0

/-- Getter `refreshed` (`this.data.refreshed || 0`). -/
def SessionState.refreshed_ts (s : SessionState) : Int :=
  (s.data.refreshed).getD 0

/-- Getter `active`: `true` when `token_info` is absent, else
`token_info.active == true`. -/
def SessionState.active (s : SessionState) : Bool :=
  match s.data.token_info with
  | none => true
  | some ti => decide (ti.active = some true)

/-- `is_valid_session()`. -/
def SessionState.is_valid_session (s : SessionState) : Bool :=
  if s.data.access_token = none then false
  else if s.session_type = some SessionType.bearer then true
  else decide (s.data.invalidated = none)

/-- `is_valid_token_info()`. -/
def SessionState.is_valid_token_info (s : SessionState) (p : Provider) : Bool :=
  if p.introspect_url = none then true
  else decide (s.data.token_info ≠ none)

/-- `is_refresh_elapsed()`. -/
def SessionState.is_refresh_elapsed (s : SessionState) (p : Provider) (now : Int) : Bool :=
  if s.session_type = some SessionType.bearer then false
  else if s.data.refresh_token = none then false
  else decide (now - s.refreshed_ts ≥ p.refresh_interval)

/-- `is_recheck_elapsed()`. -/
def SessionState.is_recheck_elapsed (s : SessionState) (p : Provider) (now : Int) : Bool :=
  decide (now - s.updated_ts ≥ p.recheck_interval)

/-- `needs_update()`. -/
def SessionState.needs_update (s : SessionState) (p : Provider) (now : Int) : Bool :=
  if !s.is_valid_session then false
  else
    !s.active || !(s.is_valid_token_info p) ||
      s.is_recheck_elapsed p now || s.is_refresh_elapsed p now

/-- `is_authenticated()`. -/
def SessionState.is_authenticated (s : SessionState) (p : Provider) (now : Int) : Bool :=
  s.is_valid_session && !(s.needs_update p now)

/-- `invalidate()`: stamps `invalidated = now`. -/
def SessionState.invalidate (s : SessionState) (now : Int) : SessionState :=
  { s with data := { s.data with invalidated := some now } }

/-- JS truthiness of an optional string (`if (data.access_token)`): `null`,
`undefined` and the empty string are falsy. -/
def truthy : Option String → Bool
  | none => false
  | some v => decide (v ≠ "")

/-- `update_session_data(data)` as a pure transformation of the stored
data: copy every non-null field of the response over the current data, then
stamp `updated = now`, stamp `refreshed = now` when the response carries a
`refresh_token`, and delete `invalidated` when the response carries a
truthy `access_token`. -/
def update_session_data (resp : SessionData) (now : Int) (d : SessionData) : SessionData :=
  let m : SessionData :=
    { access_token := resp.access_token <|> d.access_token
      id_token := resp.id_token <|> d.id_token
      scope := resp.scope <|> d.scope
      refresh_token := resp.refresh_token <|> d.refresh_token
      token_info := resp.token_info <|> d.token_info
      invalidated := resp.invalidated <|> d.invalidated
      updated := resp.updated <|> d.updated
      refreshed := resp.refreshed <|> d.refreshed
      introspected := resp.introspected <|> d.introspected }
  let m : SessionData := { m with updated := some now }
  let m : SessionData :=
    if resp.refresh_token ≠ none then { m with refreshed := some now } else m
  if truthy resp.access_token then { m with invalidated := none } else m

/-- The response object `{ token_info }` passed to `update_session_data`
by `update_token_info`. -/
def introspect_response (ti : TokenInfo) : SessionData :=
  { emptyData with token_info := some ti }

/-- `update_token_info(save = false, throw_errors = false)` as used from
within `update()`: returns the boolean result, the new state and the number
of network calls performed. The oracle slot `res` is the introspection
outcome (`none` = the call threw). -/
def SessionState.update_token_info (s : SessionState) (p : Provider)
    (res : Option TokenInfo) (now : Int) : Bool × SessionState × Nat :=
  if p.introspect_url = none then (true, s, 0)
  else
    match res with
    | none => (false, s, 1)
    | some ti =>
        (true, { s with data := update_session_data (introspect_response ti) now s.data }, 1)

/-- `refresh(save = false, throw_errors = false)` as used from within
`update()`: no-op `false` without a refresh token, else one network
exchange whose outcome is the oracle slot `res` (`none` = the call threw). -/
def SessionState.refresh (s : SessionState) (res : Option SessionData)
    (now : Int) : Bool × SessionState × Nat :=
  if s.data.refresh_token = none then (false, s, 0)
  else
    match res with
    | none => (false, s, 1)
    | some sd => (true, { s with data := update_session_data sd now s.data }, 1)

/-- The network oracle for one `update()` run: one slot per call site
(`none` = that call throws a transport / non-2xx error). -/
structure Net where
  introspect_bearer : Option TokenInfo
  introspect_pre : Option TokenInfo
  introspect_post : Option TokenInfo
  refresh_res : Option SessionData
  deriving Repr, DecidableEq

/-- The backing stores outliving a request: the request's session object
(under the provider's session key) and the bearer-token cache bank. -/
structure Stores where
  req_session : Option (Option SessionData)
  cache : String → Option SessionData

/-- `save()`: persists the state to its source's store; throws on an
unknown (null) session source. -/
def SessionState.save (s : SessionState) (st : Stores) : Except String (Bool × Stores) :=
  match s.session_type with
  | some SessionType.bearer =>
      match s.data.access_token with
      | none => Except.ok (false, st)
      | some tok =>
          Except.ok
            (true,
              { st with cache := fun t => if t = tok then some s.data else st.cache t })
  | some SessionType.session_state =>
      match st.req_session with
      | none => Except.ok (false, st)
      | some _ => Except.ok (true, { st with req_session := some (some s.data) })
  | none => Except.error "Unknown session source"

/-- The outcome of the shared `case 'session_state'` block of `update()`. -/
structure StepOut where
  s : SessionState
  calls : Nat
  invalidate_called : Bool
  refresh_attempted : Bool

/-- The refresh decision of the `session_state` block: `needs_refresh`
starts as `is_refresh_elapsed() || !active`; when it is not yet needed, one
best-effort introspection runs and a failed introspection — or an inactive
result — escalates to needing a refresh. Returns the decision, the state
after the optional introspection and the network calls performed. -/
def refresh_decision (p : Provider) (net : Net) (now : Int)
    (s : SessionState) : Bool × SessionState × Nat :=
  if s.is_refresh_elapsed p now || !s.active then (true, s, 0)
  else
    let r := s.update_token_info p net.introspect_pre now
    (if r.1 then !(r.2.1).active else true, r.2.1, r.2.2)

/-- The tail of the `session_state` block, after the refresh decision: on a
needed refresh, a bearer source (reached by fall-through) is invalidated
outright; otherwise `refresh()` runs, invalidating on failure and retrying
the introspection (log-only on failure) on success. `refresh_attempted`
records whether a refresh-token network exchange was actually performed. -/
def refresh_step (p : Provider) (net : Net) (now : Int)
    (needs_refresh : Bool) (s1 : SessionState) (c1 : Nat) : StepOut :=
  if needs_refresh then
    if s1.session_type = some SessionType.bearer then
      ⟨s1.invalidate now, c1, true, false⟩
    else
      let r := s1.refresh net.refresh_res now
      if r.1 then
        let r2 := (r.2.1).update_token_info p net.introspect_post now
        ⟨r2.2.1, c1 + r.2.2 + r2.2.2, false, decide (0 < r.2.2)⟩
      else ⟨(r.2.1).invalidate now, c1 + r.2.2, true, decide (0 < r.2.2)⟩
  else ⟨s1, c1, false, false⟩

/-- The `case 'session_state'` block of `update()` (also reached by
fall-through from the `bearer` case). -/
def session_state_block (p : Provider) (net : Net) (now : Int)
    (s : SessionState) : StepOut :=
  let r := refresh_decision p net now s
  refresh_step p net now r.1 r.2.1 r.2.2

/-- The `case 'bearer'` prefix of `update()` before the fall-through:
best-effort introspect, then invalidate when not active. -/
def bearer_block (p : Provider) (net : Net) (now : Int)
    (s : SessionState) : SessionState × Nat × Bool :=
  let r := s.update_token_info p net.introspect_bearer now
  if !(r.2.1).active then ((r.2.1).invalidate now, r.2.2, true)
  else (r.2.1, r.2.2, false)

/-- What one `update()` run produced: the returned boolean, the final
state, the stores after the closing `save()`, `save()`'s own result, the
number of provider network calls, and whether `invalidate()` / a
refresh-token exchange happened along the way. -/
structure UpdateResult where
  ret : Bool
  s : SessionState
  stores : Stores
  save_ok : Bool
  net_calls : Nat
  called_invalidate : Bool
  refresh_attempted : Bool

/-- The tail of `update()`: `await this.save()` then `return true`. -/
def update_finish (s : SessionState) (calls : Nat) (inv ratt : Bool)
    (st : Stores) : Except String UpdateResult :=
  match s.save st with
  | Except.ok (ok, st1) => Except.ok ⟨true, s, st1, ok, calls, inv, ratt⟩
  | Except.error e => Except.error e

/-- `update(force)`: guard on `is_valid_session` and `needs_update`, then
branch on the session source (with the source's fall-through from `bearer`
into the `session_state` block), then persist via `save()` and return
`true`. -/
def SessionState.update (s0 : SessionState) (p : Provider) (net : Net)
    (now : Int) (st0 : Stores) (force : Bool) : Except String UpdateResult :=
  if !s0.is_valid_session then Except.ok ⟨false, s0, st0, false, 0, false, false⟩
  else if !force && !(s0.needs_update p now) then
    Except.ok ⟨false, s0, st0, false, 0, false, false⟩
  else
    match s0.session_type with
    | some SessionType.bearer =>
      let b := bearer_block p net now s0
      let out := session_state_block p net now b.1
      update_finish out.s (b.2.1 + out.calls) (b.2.2 || out.invalidate_called)
        out.refresh_attempted st0
    | some SessionType.session_state =>
      let out := session_state_block p net now s0
      update_finish out.s out.calls out.invalidate_called out.refresh_attempted st0
    | none => update_finish s0 0 false false st0

/-- `load_data_from_session(session)`: the stored value under the session
key, `{}` when the request has no session object or no entry. -/
def load_data_from_session (req_session : Option (Option SessionData)) : SessionState :=
  { session_type := some SessionType.session_state
    data := (req_session.getD none).getD emptyData }

/-- `load_data_from_bearer_token(token)`: the cached entry (or `{}`) with
`access_token` overridden by the raw bearer token and `id_token` deleted. -/
def load_data_from_bearer_token (cache : String → Option SessionData)
    (token : String) : SessionState :=
  let base : SessionData := (cache token).getD emptyData
  { session_type := some SessionType.bearer
    data := { base with access_token := some token, id_token := none } }

/-- Static `load(provider, req, bearer_token)`: with a bearer token, load
from the cache bank; otherwise from the request's session object. -/
def load (st : Stores) (bearer_token : Option String) : SessionState :=
  match bearer_token with
  | some tok => load_data_from_bearer_token st.cache tok
  | none => load_data_from_session st.req_session

/-- `clear()`: wipe the data, then `save()`. -/
def SessionState.clear (s : SessionState) (st : Stores) : Except String (Bool × Stores) :=
  SessionState.save { s with data := emptyData } st

/-! Extractors over the fallible results, so that closed propositions about
concrete runs are plain decidable equalities. -/

/-- Whether an `update()` run completed without a thrown error. -/
def run_ok : Except String UpdateResult → Bool
  | Except.ok _ => true
  | Except.error _ => false

/-- The default result used by `run_out` for an errored run. -/
def defaultUpdateResult : UpdateResult :=
  ⟨false, ⟨none, emptyData⟩, ⟨none, fun _ => none⟩, false, 0, false, false⟩

/-- The result of a non-errored `update()` run. -/
def run_out : Except String UpdateResult → UpdateResult
  | Except.ok r => r
  | Except.error _ => defaultUpdateResult

/-- The result of a non-errored `save()` / `clear()` call. -/
def persist_out : Except String (Bool × Stores) → Bool × Stores
  | Except.ok v => v
  | Except.error _ => (false, ⟨none, fun _ => none⟩)

/-- The "Active" state as §4.3 of the spec and claim C1 word it:
access_token present, the invalidated timestamp unset, token_info reporting
active (or no introspection endpoint configured), token_info valid, and
neither the recheck nor the refresh interval elapsed. Spec-side definition,
kept for comparison against the code's `is_authenticated`. -/
def spec_Active (s : SessionState) (p : Provider) (now : Int) : Bool :=
  decide (s.data.access_token ≠ none) &&
  decide (s.data.invalidated = none) &&
  ((match s.data.token_info with
    | some ti => decide (ti.active = some true)
    | none => false) || decide (p.introspect_url = none)) &&
  s.is_valid_token_info p &&
  !(s.is_recheck_elapsed p now) &&
  !(s.is_refresh_elapsed p now)

/-! Concrete sample inputs used by scenario theorems, counterexamples and
witnesses. -/

/-- A provider with no introspection endpoint, `refresh_interval = 20000`
and `recheck_interval = 1000000`. -/
def sampleProvider : Provider := ⟨none, 20000, 1000000⟩

/-- A provider with an introspection endpoint configured,
`refresh_interval = 20000` and `recheck_interval = 1000`. -/
def introProvider : Provider := ⟨some "introspect-endpoint", 20000, 1000⟩

/-- The empty bearer cache bank. -/
def emptyCache : String → Option SessionData := fun _ => none

/-- Stores with a present (empty) request session object and an empty
bearer cache. -/
def sampleStores : Stores := ⟨some none, emptyCache⟩

/-- Session data of the C4 scenario: tokens "A1"/"R1", `updated = 100000`,
`refreshed = 75000` (25000 before `now = 100000`). -/
def c4_data : SessionData :=
  ⟨some "A1", none, none, some "R1", none, none, some 100000, some 75000, none⟩

/-- The session-sourced state holding `c4_data`. -/
def c4_state : SessionState := ⟨some SessionType.session_state, c4_data⟩

/-- A refresh exchange succeeding with `{access_token: "A2"}` and no new
refresh token. -/
def c4_net : Net :=
  ⟨none, none, none, some ⟨some "A2", none, none, none, none, none, none, none, none⟩⟩

/-- The C4 scenario run: `update()` at `now = 100000`. -/
def c4_run : Except String UpdateResult :=
  c4_state.update sampleProvider c4_net 100000 sampleStores false

/-- The second, immediately-successive `update()` over the state and stores
the C4 scenario run left behind (same `now`, same network outcomes). -/
def c6_second_run : Except String UpdateResult :=
  (run_out c4_run).s.update sampleProvider c4_net 100000 (run_out c4_run).stores false

/-- A network oracle in which every provider call throws. -/
def allFailNet : Net := ⟨none, none, none, none⟩

/-- A bearer-sourced state whose data carries an `invalidated` timestamp
(as a bearer cache entry saved after an earlier invalidation would). -/
def c1_bearer_state : SessionState :=
  ⟨some SessionType.bearer, ⟨some "TOKEN", none, none, none, none, some 5, some 100000, none, none⟩⟩

/-- A response whose `access_token` is the empty string: non-null but
falsy in JS. -/
def c3_resp : SessionData := ⟨some "", none, none, none, none, none, none, none, none⟩

/-- Session data already invalidated at timestamp 5. -/
def c3_data : SessionData := ⟨none, none, none, none, none, some 5, none, none, none⟩

/-- A session-sourced state with an access token, an active `token_info`,
no refresh token, and `updated = 0` (recheck due at `now = 1000000`). -/
def c9_state : SessionState :=
  ⟨some SessionType.session_state,
    ⟨some "A", none, none, none, some ⟨some true⟩, none, some 0, none, none⟩⟩

/-- The C9 run: introspection throws, no refresh token is held. -/
def c9_run : Except String UpdateResult :=
  c9_state.update introProvider allFailNet 1000000 sampleStores false

/-- A bearer cache entry for token "T". -/
def cacheT : String → Option SessionData := fun t =>
  if t = "T" then some ⟨some "T", none, none, none, none, none, some 3, none, none⟩ else none

/-- Stores holding `cacheT`. -/
def storesT : Stores := ⟨some none, cacheT⟩

/-- The bearer-sourced state for token "T". -/
def bearerT : SessionState :=
  ⟨some SessionType.bearer, ⟨some "T", none, none, none, none, none, some 3, none, none⟩⟩

/-- The C2 scenario run: session-sourced, refresh due, every provider call
throwing. -/
def c2_run : Except String UpdateResult :=
  c4_state.update sampleProvider allFailNet 100000 sampleStores false

/-- A refresh exchange succeeding with both a new access token and a new
refresh token. -/
def c6w_net : Net :=
  ⟨none, none, none, some ⟨some "A2", none, none, some "R2", none, none, none, none, none⟩⟩

/-- A first `update()` run that fully settles the session (the refresh
response carries a new refresh token, so no interval stays elapsed). -/
def c6w_run : Except String UpdateResult :=
  c4_state.update sampleProvider c6w_net 100000 sampleStores false

/-! ## Field characterizations of `update_session_data` -/

theorem update_session_data_access_token (resp d : SessionData) (now : Int) :
    (update_session_data resp now d).access_token = (resp.access_token <|> d.access_token) := by
  simp only [update_session_data]
  split <;> split <;> rfl

theorem update_session_data_id_token (resp d : SessionData) (now : Int) :
    (update_session_data resp now d).id_token = (resp.id_token <|> d.id_token) := by
  simp only [update_session_data]
  split <;> split <;> rfl

theorem update_session_data_refresh_token (resp d : SessionData) (now : Int) :
    (update_session_data resp now d).refresh_token = (resp.refresh_token <|> d.refresh_token) := by
  simp only [update_session_data]
  split <;> split <;> rfl

theorem update_session_data_token_info (resp d : SessionData) (now : Int) :
    (update_session_data resp now d).token_info = (resp.token_info <|> d.token_info) := by
  simp only [update_session_data]
  split <;> split <;> rfl

theorem update_session_data_updated (resp d : SessionData) (now : Int) :
    (update_session_data resp now d).updated = some now := by
  simp only [update_session_data]
  split <;> split <;> rfl

theorem update_session_data_refreshed (resp d : SessionData) (now : Int) :
    (update_session_data resp now d).refreshed =
      if resp.refresh_token ≠ none then some now else (resp.refreshed <|> d.refreshed) := by
  simp only [update_session_data]
  split <;> split <;> simp_all

theorem update_session_data_invalidated (resp d : SessionData) (now : Int) :
    (update_session_data resp now d).invalidated =
      if truthy resp.access_token then none else (resp.invalidated <|> d.invalidated) := by
  simp only [update_session_data]
  split <;> split <;> simp_all

/-! ## Preservation lemmas for the steps of `update()` -/

theorem update_token_info_preserves (s : SessionState) (p : Provider)
    (res : Option TokenInfo) (now : Int) :
    ((s.update_token_info p res now).2.1).session_type = s.session_type ∧
    ((s.update_token_info p res now).2.1).data.access_token = s.data.access_token ∧
    ((s.update_token_info p res now).2.1).data.refresh_token = s.data.refresh_token ∧
    ((s.update_token_info p res now).2.1).data.refreshed = s.data.refreshed ∧
    ((s.update_token_info p res now).2.1).data.invalidated = s.data.invalidated := by
  unfold SessionState.update_token_info
  split
  · exact ⟨rfl, rfl, rfl, rfl, rfl⟩
  · match res with
    | none => exact ⟨rfl, rfl, rfl, rfl, rfl⟩
    | some ti =>
        refine ⟨rfl, ?_, ?_, ?_, ?_⟩ <;>
          simp [update_session_data_access_token, update_session_data_refresh_token,
            update_session_data_refreshed, update_session_data_invalidated,
            introspect_response, emptyData, truthy]

theorem refresh_preserves_session_type (s : SessionState) (res : Option SessionData)
    (now : Int) : ((s.refresh res now).2.1).session_type = s.session_type := by
  unfold SessionState.refresh
  split
  · rfl
  · match res with
    | none => rfl
    | some sd => rfl

theorem invalidate_preserves (s : SessionState) (now : Int) :
    (s.invalidate now).session_type = s.session_type ∧
    (s.invalidate now).data.access_token = s.data.access_token ∧
    (s.invalidate now).data.refresh_token = s.data.refresh_token ∧
    (s.invalidate now).data.refreshed = s.data.refreshed :=
  ⟨rfl, rfl, rfl, rfl⟩

theorem refresh_decision_preserves (p : Provider) (net : Net) (now : Int)
    (s : SessionState) :
    ((refresh_decision p net now s).2.1).session_type = s.session_type ∧
    ((refresh_decision p net now s).2.1).data.access_token = s.data.access_token ∧
    ((refresh_decision p net now s).2.1).data.refresh_token = s.data.refresh_token ∧
    ((refresh_decision p net now s).2.1).data.refreshed = s.data.refreshed ∧
    ((refresh_decision p net now s).2.1).data.invalidated = s.data.invalidated := by
  unfold refresh_decision
  split
  · exact ⟨rfl, rfl, rfl, rfl, rfl⟩
  · exact update_token_info_preserves s p net.introspect_pre now

theorem refresh_step_bearer_preserves (p : Provider) (net : Net) (now : Int)
    (nr : Bool) (s1 : SessionState) (c1 : Nat)
    (h : s1.session_type = some SessionType.bearer) :
    (refresh_step p net now nr s1 c1).s.data.refresh_token = s1.data.refresh_token ∧
    (refresh_step p net now nr s1 c1).s.data.refreshed = s1.data.refreshed ∧
    (refresh_step p net now nr s1 c1).refresh_attempted = false := by
  unfold refresh_step
  cases nr with
  | false => exact ⟨rfl, rfl, rfl⟩
  | true =>
      simp only [h, if_true, if_pos rfl]
      exact ⟨rfl, rfl, trivial⟩

theorem session_state_block_bearer_preserves (p : Provider) (net : Net) (now : Int)
    (s : SessionState) (h : s.session_type = some SessionType.bearer) :
    (session_state_block p net now s).s.data.refresh_token = s.data.refresh_token ∧
    (session_state_block p net now s).s.data.refreshed = s.data.refreshed ∧
    (session_state_block p net now s).refresh_attempted = false := by
  unfold session_state_block
  have hd := refresh_decision_preserves p net now s
  have hb := refresh_step_bearer_preserves p net now
    (refresh_decision p net now s).1 (refresh_decision p net now s).2.1
    (refresh_decision p net now s).2.2 (by rw [hd.1]; exact h)
  exact ⟨hb.1.trans hd.2.2.1, hb.2.1.trans hd.2.2.2.1, hb.2.2⟩

theorem bearer_block_preserves (p : Provider) (net : Net) (now : Int)
    (s : SessionState) :
    (bearer_block p net now s).1.session_type = s.session_type ∧
    (bearer_block p net now s).1.data.refresh_token = s.data.refresh_token ∧
    (bearer_block p net now s).1.data.refreshed = s.data.refreshed := by
  simp only [bearer_block]
  have hu := update_token_info_preserves s p net.introspect_bearer now
  split
  · exact ⟨hu.1, hu.2.2.1, hu.2.2.2.1⟩
  · exact ⟨hu.1, hu.2.2.1, hu.2.2.2.1⟩

theorem refresh_step_preserves_type (p : Provider) (net : Net) (now : Int)
    (nr : Bool) (s1 : SessionState) (c1 : Nat) :
    (refresh_step p net now nr s1 c1).s.session_type = s1.session_type := by
  unfold refresh_step
  cases nr with
  | false => rfl
  | true =>
      simp only [if_true]
      split
      · rfl
      · split
        · exact (update_token_info_preserves _ p net.introspect_post now).1.trans
            (refresh_preserves_session_type s1 net.refresh_res now)
        · exact refresh_preserves_session_type s1 net.refresh_res now

theorem session_state_block_preserves_type (p : Provider) (net : Net) (now : Int)
    (s : SessionState) :
    (session_state_block p net now s).s.session_type = s.session_type := by
  unfold session_state_block
  exact (refresh_step_preserves_type p net now _ _ _).trans
    (refresh_decision_preserves p net now s).1

theorem update_finish_ok_fields (s : SessionState) (calls : Nat) (inv ratt : Bool)
    (st : Stores) (h : s.session_type ≠ none) :
    run_ok (update_finish s calls inv ratt st) = true ∧
    (run_out (update_finish s calls inv ratt st)).ret = true ∧
    (run_out (update_finish s calls inv ratt st)).s = s ∧
    (run_out (update_finish s calls inv ratt st)).called_invalidate = inv ∧
    (run_out (update_finish s calls inv ratt st)).net_calls = calls ∧
    (run_out (update_finish s calls inv ratt st)).refresh_attempted = ratt := by
  rcases hty : s.session_type with _ | ty
  · exact absurd hty h
  · cases ty
    · rcases hrs : st.req_session with _ | v <;>
        simp [update_finish, SessionState.save, hty, hrs, run_ok, run_out]
    · rcases hat : s.data.access_token with _ | tok <;>
        simp [update_finish, SessionState.save, hty, hat, run_ok, run_out]

theorem update_finish_session_store (s : SessionState) (calls : Nat) (inv ratt : Bool)
    (st : Stores) (v : Option SessionData)
    (h1 : s.session_type = some SessionType.session_state)
    (h5 : st.req_session = some v) :
    update_finish s calls inv ratt st =
      Except.ok ⟨true, s, { st with req_session := some (some s.data) }, true, calls, inv, ratt⟩ := by
  unfold update_finish SessionState.save
  rw [h1, h5]

/-! ## Claims -/

/-- C10: after `load()` with a bearer token the session's `access_token`
always equals the raw bearer token string (overriding any cached value, and
present even with no cache entry at all), and `is_valid_session()` is true
for every bearer-loaded session, regardless of the `invalidated` timestamp
held in its data. -/
theorem C10_bearer_load_overrides_and_valid (st : Stores) (tok : String) :
    (load st (some tok)).data.access_token = some tok ∧
    (load st (some tok)).is_valid_session = true := by
  refine ⟨rfl, ?_⟩
  simp [load, load_data_from_bearer_token, SessionState.is_valid_session]

/-- C3 counterexample: a response whose `access_token` is the empty string
is non-null, yet `update_session_data` does not clear a previously set
`invalidated` timestamp (the code tests JS truthiness, not non-nullness). -/
theorem C3_counterexample_empty_access_token :
    c3_resp.access_token ≠ none ∧
    (update_session_data c3_resp 7 c3_data).invalidated = some 5 :=
  ⟨by decide, by decide⟩

/-- C3 (amended): whenever session data is updated with a response whose
`access_token` is truthy (non-null and non-empty), the resulting data has
its `invalidated` timestamp cleared, for every prior state including
previously invalidated ones. -/
theorem C3_truthy_access_token_clears_invalidated (resp d : SessionData) (now : Int)
    (h : truthy resp.access_token = true) :
    (update_session_data resp now d).invalidated = none := by
  rw [update_session_data_invalidated, if_pos h]

/-- C3 witness: the amended claim at a concrete non-empty token over the
previously invalidated `c3_data`. -/
theorem C3_witness_clears_invalidated :
    (update_session_data ⟨some "tok9", none, none, none, none, none, none, none, none⟩
      9 c3_data).invalidated = none :=
  C3_truthy_access_token_clears_invalidated _ c3_data 9 (by decide)

/-- C4: `update_session_data` sets the `refreshed` timestamp exactly when
the applied response carries a non-null `refresh_token` (responses carry no
literal `refreshed` field of their own); and in the scenario
refresh_interval=20000, refreshed=now-25000, valid refresh token, refresh
succeeding with only access_token "A2", the post-update state has
access_token "A2", the old refresh_token "R1", `refreshed` NOT updated and
`invalidated` unset. -/
theorem C4_refreshed_advances_iff_refresh_token :
    (∀ (resp d : SessionData) (now : Int), resp.refreshed = none →
      (update_session_data resp now d).refreshed =
        if resp.refresh_token ≠ none then some now else d.refreshed) ∧
    ((run_out c4_run).s.data.access_token = some "A2" ∧
      (run_out c4_run).s.data.refresh_token = some "R1" ∧
      (run_out c4_run).s.data.refreshed = some 75000 ∧
      (run_out c4_run).s.data.invalidated = none) := by
  constructor
  · intro resp d now h
    rw [update_session_data_refreshed, h]
    rcases resp.refresh_token with _ | t <;> simp
  · exact ⟨by decide, by decide, by decide, by decide⟩

/-- C4 witness: the general part at a concrete refresh-token-free
response. -/
theorem C4_witness_no_refresh_token :
    (update_session_data ⟨some "A9", none, none, none, none, none, none, none, none⟩
      41 c4_data).refreshed = some 75000 := by
  have h := C4_refreshed_advances_iff_refresh_token.1
    ⟨some "A9", none, none, none, none, none, none, none, none⟩ c4_data 41 rfl
  simpa using h

/-- C7: `save()` followed by `load()` against the same backing store yields
field-for-field equivalent SessionData — for a session-sourced session via
the same request session object, for a bearer session via the same cache
and the same bearer token — except that a bearer-loaded session never
carries `id_token`. -/
theorem C7_save_load_roundtrip (d : SessionData) (st0 st1 : Stores) :
    (SessionState.save ⟨some SessionType.session_state, d⟩ st0 = Except.ok (true, st1) →
      (load st1 none).data = d) ∧
    (∀ tok, d.access_token = some tok →
      SessionState.save ⟨some SessionType.bearer, d⟩ st0 = Except.ok (true, st1) →
      (load st1 (some tok)).data = { d with id_token := none }) := by
  constructor
  · intro h
    unfold SessionState.save at h
    rcases hrs : st0.req_session with _ | v
    · rw [hrs] at h
      simp at h
    · rw [hrs] at h
      simp only [Except.ok.injEq, Prod.mk.injEq, true_and] at h
      subst h
      simp [load, load_data_from_session]
  · intro tok htok h
    unfold SessionState.save at h
    rw [htok] at h
    simp only [Except.ok.injEq, Prod.mk.injEq, true_and] at h
    subst h
    show ({ ((if tok = tok then some d else st0.cache tok).getD emptyData) with
        access_token := some tok, id_token := none } : SessionData) = { d with id_token := none }
    rw [if_pos rfl, Option.getD_some, ← htok]

/-- C7 witness: the session-sourced round-trip at the concrete `c4_data`. -/
theorem C7_witness_session_roundtrip :
    (load ⟨some (some c4_data), emptyCache⟩ none).data = c4_data :=
  (C7_save_load_roundtrip c4_data sampleStores ⟨some (some c4_data), emptyCache⟩).1 rfl

/-- C8 counterexample: for a bearer-sourced session, `clear()` does not
persist (the wiped data has no access token, so `save()` returns false and
leaves the cache untouched), and a subsequent `load()` with the same bearer
token yields `access_token = some "T"`, not null. -/
theorem C8_counterexample_bearer_clear_load :
    (persist_out (bearerT.clear storesT)).1 = false ∧
    (load (persist_out (bearerT.clear storesT)).2 (some "T")).data.access_token ≠ none ∧
    (load (persist_out (bearerT.clear storesT)).2 (some "T")).data.access_token = some "T" :=
  ⟨rfl, by decide, rfl⟩

/-- C8 (amended): after `clear()` on a session-sourced session, a
subsequent `load()` from the same backing store yields
`access_token = none`; for a bearer session `clear()` persists nothing
(`save()` is a no-op returning false on the wiped data), and a bearer
`load()` always re-injects the bearer token as `access_token`. -/
theorem C8_session_clear_then_load_empty (d : SessionData) (st0 : Stores) :
    (load (persist_out (SessionState.clear ⟨some SessionType.session_state, d⟩ st0)).2
        none).data.access_token = none ∧
    SessionState.clear ⟨some SessionType.bearer, d⟩ st0 = Except.ok (false, st0) := by
  constructor
  · rcases hrs : st0.req_session with _ | v <;>
      simp [SessionState.clear, SessionState.save, hrs, persist_out, load,
        load_data_from_session, emptyData]
  · rfl

/-! ## Further helper lemmas about one `update()` run -/

theorem refresh_token_ne_none_of_elapsed (s : SessionState) (p : Provider) (now : Int)
    (h3 : s.is_refresh_elapsed p now = true) : s.data.refresh_token ≠ none := by
  intro hc
  unfold SessionState.is_refresh_elapsed at h3
  rw [hc] at h3
  simp at h3

theorem access_token_ne_none_of_valid (s : SessionState)
    (hv : s.is_valid_session = true) : s.data.access_token ≠ none := by
  intro hc
  unfold SessionState.is_valid_session at hv
  rw [if_pos hc] at hv
  exact Bool.false_ne_true hv

theorem needs_update_of_refresh_elapsed (s : SessionState) (p : Provider) (now : Int)
    (hv : s.is_valid_session = true) (h3 : s.is_refresh_elapsed p now = true) :
    s.needs_update p now = true := by
  unfold SessionState.needs_update
  simp [hv, h3]

theorem update_session_state_run (p : Provider) (net : Net) (now : Int)
    (s : SessionState) (st0 : Stores) (force : Bool)
    (h1 : s.session_type = some SessionType.session_state)
    (hv : s.is_valid_session = true)
    (hn : s.needs_update p now = true) :
    s.update p net now st0 force =
      update_finish (session_state_block p net now s).s
        (session_state_block p net now s).calls
        (session_state_block p net now s).invalidate_called
        (session_state_block p net now s).refresh_attempted st0 := by
  unfold SessionState.update
  simp [hv, hn, h1]

theorem session_state_block_refresh_fail (p : Provider) (net : Net) (now : Int)
    (s : SessionState)
    (h1 : s.session_type = some SessionType.session_state)
    (h3 : s.is_refresh_elapsed p now = true)
    (hrt : s.data.refresh_token ≠ none)
    (h4 : net.refresh_res = none) :
    session_state_block p net now s = ⟨s.invalidate now, 1, true, true⟩ := by
  unfold session_state_block refresh_decision refresh_step SessionState.refresh
  simp [h1, h3, h4, hrt]

theorem invalidate_not_authenticated (s : SessionState) (p : Provider) (now : Int)
    (h1 : s.session_type ≠ some SessionType.bearer) :
    (s.invalidate now).is_authenticated p now = false := by
  have hinv : (s.invalidate now).is_valid_session = false := by
    unfold SessionState.is_valid_session
    rcases hat : (s.invalidate now).data.access_token with _ | t
    · simp [hat]
    · simp [hat, SessionState.invalidate, h1]
  unfold SessionState.is_authenticated
  rw [hinv]
  rfl

/-- C2: for a session-sourced session whose refresh is due, when the
refresh-token exchange throws, `update()` catches the error, calls
`invalidate()`, still persists via `save()` into the request session
object, and returns true (no exception propagates); `is_authenticated()`
is false afterwards. -/
theorem C2_refresh_throw_invalidates (p : Provider) (net : Net) (now : Int)
    (s : SessionState) (st0 : Stores) (v : Option SessionData)
    (h1 : s.session_type = some SessionType.session_state)
    (hv : s.is_valid_session = true)
    (h3 : s.is_refresh_elapsed p now = true)
    (h4 : net.refresh_res = none)
    (h5 : st0.req_session = some v) :
    s.update p net now st0 false =
      Except.ok ⟨true, s.invalidate now,
        { st0 with req_session := some (some (s.invalidate now).data) }, true, 1, true, true⟩ ∧
    (s.invalidate now).is_authenticated p now = false := by
  have hrt := refresh_token_ne_none_of_elapsed s p now h3
  have hnu := needs_update_of_refresh_elapsed s p now hv h3
  have hrun := update_session_state_run p net now s st0 false h1 hv hnu
  have hb := session_state_block_refresh_fail p net now s h1 h3 hrt h4
  rw [hb] at hrun
  have hfin := update_finish_session_store (s.invalidate now) 1 true true st0 v
    ((invalidate_preserves s now).1.trans h1) h5
  refine ⟨hrun.trans hfin, ?_⟩
  refine invalidate_not_authenticated s p now ?_
  rw [h1]
  simp

/-- C2 witness: the scenario run `c2_run` (refresh due at `now = 100000`,
every provider call throwing, request session object present). -/
theorem C2_witness_concrete :
    c2_run =
      Except.ok ⟨true, c4_state.invalidate 100000,
        { sampleStores with req_session := some (some (c4_state.invalidate 100000).data) },
        true, 1, true, true⟩ ∧
    (c4_state.invalidate 100000).is_authenticated sampleProvider 100000 = false :=
  C2_refresh_throw_invalidates sampleProvider allFailNet 100000 c4_state sampleStores none
    rfl (by decide) (by decide) rfl rfl

/-- C5: `update()` on a bearer-sourced session never changes the
`refresh_token` field or the `refreshed` timestamp, and never performs a
refresh-token exchange, regardless of elapsed intervals, introspection
outcomes or the force flag. -/
theorem C5_bearer_update_frame (p : Provider) (net : Net) (now : Int)
    (st0 : Stores) (force : Bool) (s : SessionState)
    (h : s.session_type = some SessionType.bearer) :
    (run_out (s.update p net now st0 force)).s.data.refresh_token = s.data.refresh_token ∧
    (run_out (s.update p net now st0 force)).s.data.refreshed = s.data.refreshed ∧
    (run_out (s.update p net now st0 force)).refresh_attempted = false := by
  unfold SessionState.update
  split
  · exact ⟨rfl, rfl, rfl⟩
  · split
    · exact ⟨rfl, rfl, rfl⟩
    · simp only [h]
      have hbp := bearer_block_preserves p net now s
      have hbt : (bearer_block p net now s).1.session_type = some SessionType.bearer :=
        hbp.1.trans h
      have hout := session_state_block_bearer_preserves p net now
        (bearer_block p net now s).1 hbt
      have hty : (session_state_block p net now (bearer_block p net now s).1).s.session_type
          ≠ none := by
        rw [session_state_block_preserves_type, hbt]
        exact Option.some_ne_none _
      have hfin := update_finish_ok_fields
        (session_state_block p net now (bearer_block p net now s).1).s
        ((bearer_block p net now s).2.1 +
          (session_state_block p net now (bearer_block p net now s).1).calls)
        ((bearer_block p net now s).2.2 ||
          (session_state_block p net now (bearer_block p net now s).1).invalidate_called)
        (session_state_block p net now (bearer_block p net now s).1).refresh_attempted
        st0 hty
      refine ⟨?_, ?_, ?_⟩
      · rw [hfin.2.2.1]
        exact hout.1.trans hbp.2.1
      · rw [hfin.2.2.1]
        exact hout.2.1.trans hbp.2.2
      · rw [hfin.2.2.2.2.2]
        exact hout.2.2

/-- C5 witness: a concrete bearer-sourced update run (introspection
configured and throwing, recheck due). -/
theorem C5_witness_concrete :
    (run_out (bearerT.update introProvider allFailNet 1000000 storesT false)).s.data.refresh_token
        = bearerT.data.refresh_token ∧
    (run_out (bearerT.update introProvider allFailNet 1000000 storesT false)).s.data.refreshed
        = bearerT.data.refreshed ∧
    (run_out (bearerT.update introProvider allFailNet 1000000 storesT false)).refresh_attempted
        = false :=
  C5_bearer_update_frame introProvider allFailNet 1000000 storesT false bearerT rfl

theorem session_state_block_no_invalidate (p : Provider) (net : Net) (now : Int)
    (s : SessionState)
    (h1 : s.session_type = some SessionType.session_state)
    (hrt : s.data.refresh_token ≠ none)
    (hres : net.refresh_res ≠ none) :
    (session_state_block p net now s).invalidate_called = false := by
  obtain ⟨sd, hsd⟩ := Option.ne_none_iff_exists'.mp hres
  cases hnr : (refresh_decision p net now s).1 with
  | false => simp [session_state_block, refresh_step, hnr]
  | true =>
      have hty := (refresh_decision_preserves p net now s).1
      have hrt1 : (refresh_decision p net now s).2.1.data.refresh_token ≠ none := by
        rw [(refresh_decision_preserves p net now s).2.2.1]
        exact hrt
      obtain ⟨rt, hrt2⟩ := Option.ne_none_iff_exists'.mp hrt1
      simp [session_state_block, refresh_step, hnr, hty, h1, SessionState.refresh,
        hrt2, hsd]

/-- C9 counterexample: a session-sourced session holding no refresh token,
whose introspection call throws at a due recheck: `update()` calls
`invalidate()` (`called_invalidate = true`) although no refresh-token
exchange was ever performed (`refresh_attempted = false`) — the
introspection failure by itself invalidated the session. -/
theorem C9_counterexample_introspect_failure_invalidates :
    (run_out c9_run).called_invalidate = true ∧
    (run_out c9_run).refresh_attempted = false ∧
    allFailNet.introspect_pre = none ∧
    c9_state.data.refresh_token = none :=
  ⟨by decide, by decide, rfl, rfl⟩

/-- C9 (amended): during `update()` of a session-sourced session,
`invalidate()` is called only when the refresh step failed — that is, only
when the session holds no refresh token (so no exchange could be
attempted) or the refresh-token exchange itself failed. An introspection
failure escalates to the refresh step; with a refresh token whose exchange
succeeds, it never invalidates. -/
theorem C9_invalidate_only_on_refresh_failure (p : Provider) (net : Net) (now : Int)
    (st0 : Stores) (force : Bool) (s : SessionState)
    (h1 : s.session_type = some SessionType.session_state)
    (hinv : (run_out (s.update p net now st0 force)).called_invalidate = true) :
    s.data.refresh_token = none ∨ net.refresh_res = none := by
  by_cases hrt : s.data.refresh_token = none
  · exact Or.inl hrt
  by_cases hres : net.refresh_res = none
  · exact Or.inr hres
  exfalso
  have hblock := session_state_block_no_invalidate p net now s h1 hrt hres
  revert hinv
  unfold SessionState.update
  split
  · intro hinv
    simp [run_out] at hinv
  · split
    · intro hinv
      simp [run_out] at hinv
    · simp only [h1]
      have hty : (session_state_block p net now s).s.session_type ≠ none := by
        rw [session_state_block_preserves_type, h1]
        exact Option.some_ne_none _
      have hfin := update_finish_ok_fields (session_state_block p net now s).s
        (session_state_block p net now s).calls
        (session_state_block p net now s).invalidate_called
        (session_state_block p net now s).refresh_attempted st0 hty
      intro hinv
      rw [hfin.2.2.2.1, hblock] at hinv
      exact Bool.false_ne_true hinv

/-- C9 witness: the amended claim applied at the concrete C9 run. -/
theorem C9_witness_concrete :
    c9_state.data.refresh_token = none ∨ allFailNet.refresh_res = none :=
  C9_invalidate_only_on_refresh_failure introProvider allFailNet 1000000 sampleStores
    false c9_state rfl (by decide)

theorem update_noop_when_not_due (p : Provider) (net : Net) (now : Int)
    (s : SessionState) (st : Stores)
    (h : s.is_valid_session = false ∨ s.needs_update p now = false) :
    s.update p net now st false = Except.ok ⟨false, s, st, false, 0, false, false⟩ := by
  unfold SessionState.update
  rcases h with h | h
  · simp [h]
  · cases hv : s.is_valid_session
    · simp [hv]
    · simp [hv, h]

/-- C6 counterexample: after the C4 scenario's first `update()` (a refresh
response carrying no new refresh token), the refresh interval is still
elapsed, so a second `update()` in immediate succession (same `now`, same
stores) performs another provider network call and returns true instead of
being a no-op returning false. -/
theorem C6_counterexample_second_update_not_noop :
    (run_out c4_run).ret = true ∧
    (run_out c6_second_run).ret = true ∧
    (run_out c6_second_run).net_calls = 1 :=
  ⟨by decide, by decide, by decide⟩

/-- C6 (amended): a second `update()` in immediate succession is a no-op
returning false with no network calls whenever the first call left the
session invalid or with `needs_update()` false (its update timestamps not
elapsed); a refresh response without a new refresh token can leave the
refresh interval still elapsed, in which case the second call acts
again. -/
theorem C6_second_update_noop_when_settled (p : Provider) (net1 net2 : Net)
    (now : Int) (s0 : SessionState) (st0 : Stores) (force : Bool)
    (h : (run_out (s0.update p net1 now st0 force)).s.is_valid_session = false ∨
      (run_out (s0.update p net1 now st0 force)).s.needs_update p now = false) :
    (run_out (s0.update p net1 now st0 force)).s.update p net2 now
        (run_out (s0.update p net1 now st0 force)).stores false =
      Except.ok ⟨false, (run_out (s0.update p net1 now st0 force)).s,
        (run_out (s0.update p net1 now st0 force)).stores, false, 0, false, false⟩ :=
  update_noop_when_not_due p net2 now _ _ h

/-- C6 witness: after a first `update()` whose refresh response carries a
new refresh token, the session is settled and the immediate second
`update()` is a no-op returning false with no network calls. -/
theorem C6_witness_settled_second_call :
    (run_out c6w_run).s.update sampleProvider c6w_net 100000 (run_out c6w_run).stores false =
      Except.ok ⟨false, (run_out c6w_run).s, (run_out c6w_run).stores,
        false, 0, false, false⟩ :=
  C6_second_update_noop_when_settled sampleProvider c6w_net c6w_net 100000 c4_state
    sampleStores false (Or.inr (by decide))

theorem is_valid_session_iff (s : SessionState) :
    s.is_valid_session = true ↔
      (s.data.access_token ≠ none ∧
        (s.session_type = some SessionType.bearer ∨ s.data.invalidated = none)) := by
  unfold SessionState.is_valid_session
  split
  · rename_i hat
    simp [hat]
  · rename_i hat
    split
    · rename_i hty
      simp [hat, hty]
    · rename_i hty
      simp [hat, hty]

theorem active_iff (s : SessionState) :
    s.active = true ↔ ∀ ti, s.data.token_info = some ti → ti.active = some true := by
  unfold SessionState.active
  rcases hti : s.data.token_info with _ | ti <;> simp

theorem is_valid_token_info_iff (s : SessionState) (p : Provider) :
    s.is_valid_token_info p = true ↔
      (p.introspect_url = none ∨ s.data.token_info ≠ none) := by
  unfold SessionState.is_valid_token_info
  split
  · rename_i h
    simp [h]
  · rename_i h
    simp [h]

theorem is_recheck_elapsed_iff (s : SessionState) (p : Provider) (now : Int) :
    s.is_recheck_elapsed p now = false ↔
      now - (s.data.updated).getD 0 < p.recheck_interval := by
  unfold SessionState.is_recheck_elapsed SessionState.updated_ts
  simp [not_le]

theorem is_refresh_elapsed_iff (s : SessionState) (p : Provider) (now : Int) :
    s.is_refresh_elapsed p now = false ↔
      (s.session_type = some SessionType.bearer ∨ s.data.refresh_token = none ∨
        now - (s.data.refreshed).getD 0 < p.refresh_interval) := by
  unfold SessionState.is_refresh_elapsed SessionState.refreshed_ts
  split
  · rename_i h
    simp [h]
  · rename_i h
    split
    · rename_i h2
      simp [h, h2]
    · rename_i h2
      simp [h, h2, not_le]

/-- C1 counterexample: a bearer-sourced session whose stored data carries
an `invalidated` timestamp is `is_authenticated()` (the code ignores
`invalidated` for the bearer source), while the claim's "Active" state
requires the invalidated timestamp to be unset for every source. -/
theorem C1_counterexample_bearer_invalidated :
    c1_bearer_state.is_authenticated sampleProvider 100000 = true ∧
    spec_Active c1_bearer_state sampleProvider 100000 = false :=
  ⟨by decide, by decide⟩

/-- C1 (amended): `is_authenticated()` is true exactly when: an
access_token is present; the session is bearer-sourced or the invalidated
timestamp is unset (bearer sessions ignore `invalidated`); `token_info`,
whenever present, reports active (a missing `token_info` counts as active
even with an introspection endpoint configured); the introspection
endpoint is unconfigured or `token_info` is present; the recheck interval
has not elapsed; and the session is bearer-sourced, holds no refresh
token, or its refresh interval has not elapsed. -/
theorem C1_is_authenticated_characterization (s : SessionState) (p : Provider)
    (now : Int) :
    s.is_authenticated p now = true ↔
      (s.data.access_token ≠ none ∧
        (s.session_type = some SessionType.bearer ∨ s.data.invalidated = none) ∧
        (∀ ti, s.data.token_info = some ti → ti.active = some true) ∧
        (p.introspect_url = none ∨ s.data.token_info ≠ none) ∧
        now - (s.data.updated).getD 0 < p.recheck_interval ∧
        (s.session_type = some SessionType.bearer ∨ s.data.refresh_token = none ∨
          now - (s.data.refreshed).getD 0 < p.refresh_interval)) := by
  have hvs := is_valid_session_iff s
  have hac := active_iff s
  have hvt := is_valid_token_info_iff s p
  have hrc := is_recheck_elapsed_iff s p now
  have hrf := is_refresh_elapsed_iff s p now
  unfold SessionState.is_authenticated SessionState.needs_update
  cases hv : s.is_valid_session with
  | false =>
      simp only [hv, Bool.false_and]
      exact iff_of_false (by simp) (fun hP =>
        Bool.false_ne_true (hv.symm.trans (hvs.mpr ⟨hP.1, hP.2.1⟩)))
  | true =>
      have hPv := hvs.mp hv
      simp only [hv, Bool.true_and, Bool.not_true, Bool.false_eq_true, if_false,
        Bool.not_eq_true', Bool.not_eq_false', Bool.or_eq_false_iff]
      rw [hac, hvt, hrc, hrf]
      constructor
      · rintro ⟨⟨⟨ha, hb⟩, hc⟩, hd⟩
        exact ⟨hPv.1, hPv.2, ha, hb, hc, hd⟩
      · rintro ⟨_, _, ha, hb, hc, hd⟩
        exact ⟨⟨⟨ha, hb⟩, hc⟩, hd⟩

end Stratis
